import Mathlib

/-!
Shallow embedding of the Google resource-discovery registry
(`google/resources.go` of the terracognita repository).

Modelling conventions:
* Go errors are `Err`: a base message plus the stack of `errors.Wrap`
  contexts, outermost first.  `errorsWrap` embeds `errors.Wrap`.
* The cloud client `g.gcpr` is a record of listing capabilities; a listing
  returns `Except Err` of either a flat item list or a zoned collection.
  A Go `map[string][]T` is embedded as an association list
  `List (String × List T)`: the list order stands for the (unspecified)
  iteration order a `range` over the map happens to use, so facts meant to
  hold regardless of map iteration order are quantified over all
  association lists, and "the same map" is "a permutation of the list".
* Each strategy returns its result paired with the trace of client calls
  it performed, so that claims about a call being made (or never made)
  are directly statable.  The provider back-reference stored in
  `provider.NewResource` carries no data any claim depends on, so a
  `Resource` keeps only the identifier and the resource-type tag.
-/

namespace Terracognita

/-- A tag predicate of the filter specification (`filter.Tag`). -/
structure Tag where
  name : String
  value : String
deriving DecidableEq, Repr

/-- The filter specification (`filter.Filter`): a list of tag predicates. -/
structure Filter where
  tags : List Tag
deriving DecidableEq, Repr

/-- A Go error together with its `errors.Wrap` contexts, outermost first. -/
structure Err where
  msgs : List String
  base : String
deriving DecidableEq, Repr

/-- `errors.Wrap err msg`: push one more context onto the error. -/
def errorsWrap (e : Err) (msg : String) : Err :=
  ⟨msg :: e.msgs, e.base⟩

/-- An upstream item; every listing item exposes a `Name` field. -/
structure Item where
  name : String
deriving DecidableEq, Repr

/-- A DNS resource record set: exposes `Name` and `Type`. -/
structure RRSet where
  name : String
  rrType : String
deriving DecidableEq, Repr

/-- The normalized discovery result produced by `provider.NewResource`:
a synthesized identifier plus the resource-type tag. -/
structure Resource where
  id : String
  resourceType : String
deriving DecidableEq, Repr

/-- One client call event, with the arguments it was invoked with. -/
inductive Call where
  | listInstances (f : String)
  | listFirewalls (f : String)
  | listNetworks (f : String)
  | listHealthChecks (f : String)
  | listInstanceGroups (f : String)
  | listBackendServices (f : String)
  | listURLMaps (f : String)
  | listTargetHTTPProxies (f : String)
  | listTargetHTTPSProxies (f : String)
  | listSSLCertificates (f : String)
  | listGlobalForwardingRules (f : String)
  | listForwardingRules (f : String)
  | listDisks (f : String)
  | listBackendBuckets (f : String)
  | listBuckets
  | listStorageInstances (f : String)
  | listManagedZones
  | listResourceRecordSets (zones : List String)
  | listProjectIAMCustomRoles (parent : String)
deriving DecidableEq, Repr

/-- The cloud client capability (`g.gcpr`): one listing method per resource
kind, plus the project the reader is bound to. -/
structure GCPReader where
  project : String
  listInstances : String → Except Err (List (String × List Item))
  listFirewalls : String → Except Err (List Item)
  listNetworks : String → Except Err (List Item)
  listHealthChecks : String → Except Err (List Item)
  listInstanceGroups : String → Except Err (List (String × List Item))
  listBackendServices : String → Except Err (List Item)
  listURLMaps : String → Except Err (List Item)
  listTargetHTTPProxies : String → Except Err (List Item)
  listTargetHTTPSProxies : String → Except Err (List Item)
  listSSLCertificates : String → Except Err (List Item)
  listGlobalForwardingRules : String → Except Err (List Item)
  listForwardingRules : String → Except Err (List Item)
  listDisks : String → Except Err (List (String × List Item))
  listBackendBuckets : String → Except Err (List Item)
  listBuckets : Except Err (List Item)
  listStorageInstances : String → Except Err (List Item)
  listManagedZones : Except Err (List Item)
  listResourceRecordSets : List String → Except Err (List (String × List RRSet))
  listProjectIAMCustomRoles : String → Except Err (List Item)

/-- The provider execution context (`*google`). -/
structure google where
  gcpr : GCPReader

/-- `g.Project()`: the project of the bound reader. -/
def google.Project (g : google) : String := g.gcpr.project

/-- `provider.NewResource(id, resourceType, g)`. -/
def NewResource (id : String) (resourceType : String) (_g : google) : Resource :=
  ⟨id, resourceType⟩

/-- The sentinel empty filter the unfiltered strategies pass. -/
def noFilter : String := ""

/-- The outcome of one strategy invocation: the returned value paired with
the trace of client calls performed, in order. -/
abbrev Outcome := Except Err (List Resource) × List Call

/-- `initializeFilter`: compile the tag predicates into the provider query
fragment by appending `(labels.<name>=<value>) ` per tag to a buffer. -/
def initializeFilter (filters : Filter) : String :=
  filters.tags.foldl (fun b t => b ++ ("(labels." ++ t.name ++ "=" ++ t.value ++ ") ")) ""

/-- `computeInstance`. -/
def computeInstance (g : google) (resourceType : String) (filters : Filter) : Outcome :=
  let f := initializeFilter filters
  match g.gcpr.listInstances f with
  | .error e => (.error (errorsWrap e "unable to list instances from reader"), [.listInstances f])
  | .ok instancesList =>
      (.ok (instancesList.flatMap (fun zi =>
        zi.2.map (fun i => NewResource (g.Project ++ "/" ++ zi.1 ++ "/" ++ i.name) resourceType g))),
       [.listInstances f])

/-- `computeFirewall`. -/
def computeFirewall (g : google) (resourceType : String) (_filters : Filter) : Outcome :=
  match g.gcpr.listFirewalls noFilter with
  | .error e => (.error (errorsWrap e "unable to list firewalls from reader"), [.listFirewalls noFilter])
  | .ok firewalls =>
      (.ok (firewalls.map (fun fw => NewResource fw.name resourceType g)), [.listFirewalls noFilter])

/-- `computeNetwork`. -/
def computeNetwork (g : google) (resourceType : String) (_filters : Filter) : Outcome :=
  match g.gcpr.listNetworks noFilter with
  | .error e => (.error (errorsWrap e "unable to list networks from reader"), [.listNetworks noFilter])
  | .ok networks =>
      (.ok (networks.map (fun n => NewResource n.name resourceType g)), [.listNetworks noFilter])

/-- `computeHealthCheck`. -/
def computeHealthCheck (g : google) (resourceType : String) (_filters : Filter) : Outcome :=
  match g.gcpr.listHealthChecks noFilter with
  | .error e => (.error (errorsWrap e "unable to list health checks from reader"), [.listHealthChecks noFilter])
  | .ok checks =>
      (.ok (checks.map (fun c => NewResource c.name resourceType g)), [.listHealthChecks noFilter])

/-- `computeInstanceGroup`. -/
def computeInstanceGroup (g : google) (resourceType : String) (_filters : Filter) : Outcome :=
  match g.gcpr.listInstanceGroups noFilter with
  | .error e => (.error (errorsWrap e "unable to list instance groups from reader"), [.listInstanceGroups noFilter])
  | .ok instanceGroups =>
      (.ok (instanceGroups.flatMap (fun zg =>
        zg.2.map (fun grp => NewResource (g.Project ++ "/" ++ zg.1 ++ "/" ++ grp.name) resourceType g))),
       [.listInstanceGroups noFilter])

/-- `computeBackendService`. -/
def computeBackendService (g : google) (resourceType : String) (_filters : Filter) : Outcome :=
  match g.gcpr.listBackendServices noFilter with
  | .error e => (.error (errorsWrap e "unable to list backend services from reader"), [.listBackendServices noFilter])
  | .ok backends =>
      (.ok (backends.map (fun b => NewResource b.name resourceType g)), [.listBackendServices noFilter])

/-- `computeURLMap`. -/
def computeURLMap (g : google) (resourceType : String) (_filters : Filter) : Outcome :=
  match g.gcpr.listURLMaps noFilter with
  | .error e => (.error (errorsWrap e "unable to list URL maps from reader"), [.listURLMaps noFilter])
  | .ok maps =>
      (.ok (maps.map (fun m => NewResource m.name resourceType g)), [.listURLMaps noFilter])

/-- `computeTargetHTTPProxy`. -/
def computeTargetHTTPProxy (g : google) (resourceType : String) (_filters : Filter) : Outcome :=
  match g.gcpr.listTargetHTTPProxies noFilter with
  | .error e => (.error (errorsWrap e "unable to list target http proxies from reader"), [.listTargetHTTPProxies noFilter])
  | .ok targets =>
      (.ok (targets.map (fun t => NewResource t.name resourceType g)), [.listTargetHTTPProxies noFilter])

/-- `computeTargetHTTPSProxy`. -/
def computeTargetHTTPSProxy (g : google) (resourceType : String) (_filters : Filter) : Outcome :=
  match g.gcpr.listTargetHTTPSProxies noFilter with
  | .error e => (.error (errorsWrap e "unable to list target https proxies from reader"), [.listTargetHTTPSProxies noFilter])
  | .ok targets =>
      (.ok (targets.map (fun t => NewResource t.name resourceType g)), [.listTargetHTTPSProxies noFilter])

/-- `computeSSLCertificate`. -/
def computeSSLCertificate (g : google) (resourceType : String) (_filters : Filter) : Outcome :=
  match g.gcpr.listSSLCertificates noFilter with
  | .error e => (.error (errorsWrap e "unable to list SSL certificates from reader"), [.listSSLCertificates noFilter])
  | .ok certs =>
      (.ok (certs.map (fun c => NewResource c.name resourceType g)), [.listSSLCertificates noFilter])

/-- `computeGlobalForwardingRule`. -/
def computeGlobalForwardingRule (g : google) (resourceType : String) (filters : Filter) : Outcome :=
  let f := initializeFilter filters
  match g.gcpr.listGlobalForwardingRules f with
  | .error e => (.error (errorsWrap e "unable to list global forwarding rules from reader"), [.listGlobalForwardingRules f])
  | .ok rules =>
      (.ok (rules.map (fun r => NewResource r.name resourceType g)), [.listGlobalForwardingRules f])

/-- `computeForwardingRule`.  The wrap context is the one the source uses,
which (mis)names global forwarding rules. -/
def computeForwardingRule (g : google) (resourceType : String) (filters : Filter) : Outcome :=
  let f := initializeFilter filters
  match g.gcpr.listForwardingRules f with
  | .error e => (.error (errorsWrap e "unable to list global forwarding rules from reader"), [.listForwardingRules f])
  | .ok rules =>
      (.ok (rules.map (fun r => NewResource r.name resourceType g)), [.listForwardingRules f])

/-- `computeDisk`.  The identifier is `<zone>/<name>`, with no project. -/
def computeDisk (g : google) (resourceType : String) (filters : Filter) : Outcome :=
  let f := initializeFilter filters
  match g.gcpr.listDisks f with
  | .error e => (.error (errorsWrap e "unable to list disks from reader"), [.listDisks f])
  | .ok disksList =>
      (.ok (disksList.flatMap (fun zd =>
        zd.2.map (fun d => NewResource (zd.1 ++ "/" ++ d.name) resourceType g))),
       [.listDisks f])

/-- `storageBucket`.  The wrap context is the one the source uses, which
names global forwarding rules, not buckets. -/
def storageBucket (g : google) (resourceType : String) (_filters : Filter) : Outcome :=
  match g.gcpr.listBuckets with
  | .error e => (.error (errorsWrap e "unable to list global forwarding rules from reader"), [.listBuckets])
  | .ok buckets =>
      (.ok (buckets.map (fun b => NewResource b.name resourceType g)), [.listBuckets])

/-- `sqlDatabaseInstance`. -/
def sqlDatabaseInstance (g : google) (resourceType : String) (_filters : Filter) : Outcome :=
  match g.gcpr.listStorageInstances noFilter with
  | .error e => (.error (errorsWrap e "unable to list sql storage instances rules from reader"), [.listStorageInstances noFilter])
  | .ok instances =>
      (.ok (instances.map (fun i => NewResource i.name resourceType g)), [.listStorageInstances noFilter])

/-- `managedZoneDNS`. -/
def managedZoneDNS (g : google) (resourceType : String) (_filters : Filter) : Outcome :=
  match g.gcpr.listManagedZones with
  | .error e => (.error (errorsWrap e "unable to list DNS managed zone from reader"), [.listManagedZones])
  | .ok zones =>
      (.ok (zones.map (fun z => NewResource z.name resourceType g)), [.listManagedZones])

/-- `recordSetDNS`: stage one resolves managed zones through
`managedZoneDNS`; stage two lists record sets over the resolved zone
identifiers. -/
def recordSetDNS (g : google) (resourceType : String) (filters : Filter) : Outcome :=
  match managedZoneDNS g resourceType filters with
  | (.error e, calls) => (.error (errorsWrap e "unable to previously fetch managed zones"), calls)
  | (.ok managedZones, calls) =>
      let zones := managedZones.map (fun z => z.id)
      match g.gcpr.listResourceRecordSets zones with
      | .error e =>
          (.error (errorsWrap e "unable to list resources record se record sett from reader"),
           calls ++ [.listResourceRecordSets zones])
      | .ok rrsetsList =>
          (.ok (rrsetsList.flatMap (fun zr =>
            zr.2.map (fun rr => NewResource (zr.1 ++ "/" ++ rr.name ++ "/" ++ rr.rrType) resourceType g))),
           calls ++ [.listResourceRecordSets zones])

/-- `computeBackendBucket`. -/
def computeBackendBucket (g : google) (resourceType : String) (_filters : Filter) : Outcome :=
  match g.gcpr.listBackendBuckets noFilter with
  | .error e => (.error (errorsWrap e "unable to list backend buckets from reader"), [.listBackendBuckets noFilter])
  | .ok backends =>
      (.ok (backends.map (fun b => NewResource b.name resourceType g)), [.listBackendBuckets noFilter])

/-- `projectIAMCustomRole`: passes `projects/<project>` as the listing scope. -/
def projectIAMCustomRole (g : google) (resourceType : String) (_filters : Filter) : Outcome :=
  let parent := "projects/" ++ g.gcpr.project
  match g.gcpr.listProjectIAMCustomRoles parent with
  | .error e => (.error (errorsWrap e "unable to list project IAM custom roles from reader"), [.listProjectIAMCustomRoles parent])
  | .ok roles =>
      (.ok (roles.map (fun r => NewResource r.name resourceType g)), [.listProjectIAMCustomRoles parent])

/-- `storageBucketIAMPolicy`. -/
def storageBucketIAMPolicy (g : google) (resourceType : String) (_filters : Filter) : Outcome :=
  match g.gcpr.listBuckets with
  | .error e => (.error (errorsWrap e "unable to list bucket policies custom roles from reader"), [.listBuckets])
  | .ok buckets =>
      (.ok (buckets.map (fun b => NewResource b.name resourceType g)), [.listBuckets])

/-- `computeInstanceIAMPolicy`: same listing as `computeInstance`, but the
identifier is the fully qualified resource path. -/
def computeInstanceIAMPolicy (g : google) (resourceType : String) (filters : Filter) : Outcome :=
  let f := initializeFilter filters
  match g.gcpr.listInstances f with
  | .error e => (.error (errorsWrap e "unable to list compute instances from reader"), [.listInstances f])
  | .ok list =>
      (.ok (list.flatMap (fun zi =>
        zi.2.map (fun i =>
          NewResource ("projects/" ++ g.Project ++ "/zones/" ++ zi.1 ++ "/instances/" ++ i.name) resourceType g))),
       [.listInstances f])

/-- The `ResourceType` enumeration. -/
inductive ResourceType where
  | ComputeInstance
  | ComputeFirewall
  | ComputeNetwork
  | ComputeHealthCheck
  | ComputeInstanceGroup
  | ComputeInstanceIAMPolicy
  | ComputeBackendBucket
  | ComputeBackendService
  | ComputeSSLCertificate
  | ComputeTargetHTTPProxy
  | ComputeTargetHTTPSProxy
  | ComputeURLMap
  | ComputeGlobalForwardingRule
  | ComputeForwardingRule
  | ComputeDisk
  | DNSManagedZone
  | DNSRecordSet
  | ProjectIAMCustomRole
  | StorageBucket
  | StorageBucketIAMPolicy
  | SQLDatabaseInstance
deriving DecidableEq, Repr

/-- The dispatch table binding each `ResourceType` to its fetch strategy. -/
def resources : ResourceType → google → String → Filter → Outcome
  | .ComputeInstance => computeInstance
  | .ComputeFirewall => computeFirewall
  | .ComputeNetwork => computeNetwork
  | .ComputeHealthCheck => computeHealthCheck
  | .ComputeInstanceGroup => computeInstanceGroup
  | .ComputeInstanceIAMPolicy => computeInstanceIAMPolicy
  | .ComputeBackendService => computeBackendService
  | .ComputeBackendBucket => computeBackendBucket
  | .ComputeSSLCertificate => computeSSLCertificate
  | .ComputeTargetHTTPProxy => computeTargetHTTPProxy
  | .ComputeTargetHTTPSProxy => computeTargetHTTPSProxy
  | .ComputeURLMap => computeURLMap
  | .ComputeGlobalForwardingRule => computeGlobalForwardingRule
  | .ComputeForwardingRule => computeForwardingRule
  | .ComputeDisk => computeDisk
  | .DNSManagedZone => managedZoneDNS
  | .DNSRecordSet => recordSetDNS
  | .ProjectIAMCustomRole => projectIAMCustomRole
  | .StorageBucket => storageBucket
  | .StorageBucketIAMPolicy => storageBucketIAMPolicy
  | .SQLDatabaseInstance => sqlDatabaseInstance

/-- The plain text of one compiled filter group, without the trailing
separator the buffer loop appends. -/
def tagGroup (t : Tag) : String := "(labels." ++ t.name ++ "=" ++ t.value ++ ")"

/-- Two zoned listing responses carry the same upstream data: equal
failures, or successes whose association lists are permutations of each
other (the same finite map delivered in two iteration orders). -/
def sameZonedListing {α : Type} (a b : Except Err (List (String × List α))) : Prop :=
  match a, b with
  | .ok l1, .ok l2 => l1.Perm l2
  | .error e1, .error e2 => e1 = e2
  | _, _ => False

/-- Two strategy results agree up to reordering of the produced handles:
equal failures, or successes that are permutations of each other. -/
def outcomesUpToPerm (a b : Except Err (List Resource)) : Prop :=
  match a, b with
  | .ok l1, .ok l2 => l1.Perm l2
  | .error e1, .error e2 => e1 = e2
  | _, _ => False

/-- Two readers report the same project and the same upstream data: flat
(slice-shaped) listings agree exactly, while zoned (map-shaped) listings
agree as finite maps, i.e. up to the iteration order of the delivered
association list. -/
def sameResponses (r1 r2 : GCPReader) : Prop :=
  r1.project = r2.project ∧
  (∀ f, sameZonedListing (r1.listInstances f) (r2.listInstances f)) ∧
  r1.listFirewalls = r2.listFirewalls ∧
  r1.listNetworks = r2.listNetworks ∧
  r1.listHealthChecks = r2.listHealthChecks ∧
  (∀ f, sameZonedListing (r1.listInstanceGroups f) (r2.listInstanceGroups f)) ∧
  r1.listBackendServices = r2.listBackendServices ∧
  r1.listURLMaps = r2.listURLMaps ∧
  r1.listTargetHTTPProxies = r2.listTargetHTTPProxies ∧
  r1.listTargetHTTPSProxies = r2.listTargetHTTPSProxies ∧
  r1.listSSLCertificates = r2.listSSLCertificates ∧
  r1.listGlobalForwardingRules = r2.listGlobalForwardingRules ∧
  r1.listForwardingRules = r2.listForwardingRules ∧
  (∀ f, sameZonedListing (r1.listDisks f) (r2.listDisks f)) ∧
  r1.listBackendBuckets = r2.listBackendBuckets ∧
  r1.listBuckets = r2.listBuckets ∧
  r1.listStorageInstances = r2.listStorageInstances ∧
  r1.listManagedZones = r2.listManagedZones ∧
  (∀ zs, sameZonedListing (r1.listResourceRecordSets zs) (r2.listResourceRecordSets zs)) ∧
  r1.listProjectIAMCustomRoles = r2.listProjectIAMCustomRoles

/-- Per-zone item-order preservation within one invocation: whenever a
zoned listing succeeds, each zone entry's handles appear in the strategy
output as one contiguous block, in the order of that zone's upstream item
slice — stated for each zone-partitioned strategy. -/
def zoneBlocksOrdered (g : google) (tn : String) (fl : Filter) : Prop :=
  (∀ l, g.gcpr.listInstances (initializeFilter fl) = .ok l → ∀ zi ∈ l,
    ∃ rs, (computeInstance g tn fl).fst = .ok rs ∧
      (zi.2.map (fun i =>
        NewResource (g.Project ++ "/" ++ zi.1 ++ "/" ++ i.name) tn g)).IsInfix rs) ∧
  (∀ l, g.gcpr.listInstanceGroups noFilter = .ok l → ∀ zg ∈ l,
    ∃ rs, (computeInstanceGroup g tn fl).fst = .ok rs ∧
      (zg.2.map (fun grp =>
        NewResource (g.Project ++ "/" ++ zg.1 ++ "/" ++ grp.name) tn g)).IsInfix rs) ∧
  (∀ l, g.gcpr.listDisks (initializeFilter fl) = .ok l → ∀ zd ∈ l,
    ∃ rs, (computeDisk g tn fl).fst = .ok rs ∧
      (zd.2.map (fun d => NewResource (zd.1 ++ "/" ++ d.name) tn g)).IsInfix rs) ∧
  (∀ l, g.gcpr.listInstances (initializeFilter fl) = .ok l → ∀ zi ∈ l,
    ∃ rs, (computeInstanceIAMPolicy g tn fl).fst = .ok rs ∧
      (zi.2.map (fun i =>
        NewResource ("projects/" ++ g.Project ++ "/zones/" ++ zi.1 ++ "/instances/" ++ i.name)
          tn g)).IsInfix rs) ∧
  (∀ mz l, g.gcpr.listManagedZones = .ok mz →
    g.gcpr.listResourceRecordSets (mz.map (fun z => z.name)) = .ok l → ∀ zr ∈ l,
    ∃ rs, (recordSetDNS g tn fl).fst = .ok rs ∧
      (zr.2.map (fun rr =>
        NewResource (zr.1 ++ "/" ++ rr.name ++ "/" ++ rr.rrType) tn g)).IsInfix rs)

deriving instance DecidableEq for Except

/-- Fixture: the zoned instance listing of the identifier-scheme scenario. -/
def okZonedInstances : List (String × List Item) := [("us-central1-a", [⟨"web-1"⟩])]

/-- Fixture: the zoned disk listing of the end-to-end disk scenario. -/
def okZonedDisks : List (String × List Item) := [("us-east1-b", [⟨"disk-1"⟩, ⟨"disk-2"⟩])]

/-- Fixture: a reader whose every listing succeeds, bound to project
`proj`; instances and disks return the scenario data, everything else is
empty. -/
def okReader : GCPReader where
  project := "proj"
  listInstances := fun _ => .ok okZonedInstances
  listFirewalls := fun _ => .ok []
  listNetworks := fun _ => .ok []
  listHealthChecks := fun _ => .ok []
  listInstanceGroups := fun _ => .ok []
  listBackendServices := fun _ => .ok []
  listURLMaps := fun _ => .ok []
  listTargetHTTPProxies := fun _ => .ok []
  listTargetHTTPSProxies := fun _ => .ok []
  listSSLCertificates := fun _ => .ok []
  listGlobalForwardingRules := fun _ => .ok []
  listForwardingRules := fun _ => .ok []
  listDisks := fun _ => .ok okZonedDisks
  listBackendBuckets := fun _ => .ok []
  listBuckets := .ok []
  listStorageInstances := fun _ => .ok []
  listManagedZones := .ok []
  listResourceRecordSets := fun _ => .ok []
  listProjectIAMCustomRoles := fun _ => .ok []

/-- Fixture: a base failure with no wrap context. -/
def failBase : Err := ⟨[], "boom"⟩

/-- Fixture: a reader whose managed-zone listing fails. -/
def zoneFailReader : GCPReader := { okReader with listManagedZones := .error failBase }

/-- Fixture: a reader whose bucket listing fails. -/
def bucketFailReader : GCPReader := { okReader with listBuckets := .error failBase }

/-- Fixture: a two-zone instance map delivered in one iteration order. -/
def permReaderA : GCPReader :=
  { okReader with listInstances := fun _ => .ok [("za", [⟨"i1"⟩]), ("zb", [⟨"i2"⟩])] }

/-- Fixture: the same two-zone instance map delivered in the other
iteration order. -/
def permReaderB : GCPReader :=
  { okReader with listInstances := fun _ => .ok [("zb", [⟨"i2"⟩]), ("za", [⟨"i1"⟩])] }

lemma join_nil : String.join [] = "" := rfl

lemma join_cons (a : String) (l : List String) :
    String.join (a :: l) = a ++ String.join l := by
  apply String.ext
  simp [String.join_eq, String.data_append]

lemma closeParen_space : (")" ++ " " : String) = ") " := rfl

lemma intercalate_go_nil (a s : String) : String.intercalate.go a s [] = a := by
  simp [String.intercalate.go]

lemma intercalate_go_cons (a b s : String) (l : List String) :
    String.intercalate.go a s (b :: l) = a ++ s ++ String.intercalate.go b s l := by
  induction l generalizing a b with
  | nil => simp [String.intercalate.go]
  | cons c l ih => rw [String.intercalate.go, ih, ih]; simp [String.append_assoc]

lemma intercalate_cons (a s : String) (l : List String) :
    String.intercalate s (a :: l) = String.intercalate.go a s l := rfl

lemma filterFold_eq_join (ts : List Tag) (s : String) :
    ts.foldl (fun b t => b ++ ("(labels." ++ t.name ++ "=" ++ t.value ++ ") ")) s
      = s ++ String.join (ts.map (fun t => tagGroup t ++ " ")) := by
  induction ts generalizing s with
  | nil => simp [join_nil]
  | cons t ts ih =>
      simp only [List.foldl_cons, List.map_cons, join_cons]
      rw [ih]
      have hg : ("(labels." ++ t.name ++ "=" ++ t.value ++ ") ") = tagGroup t ++ " " := by
        simp [tagGroup, String.append_assoc, closeParen_space]
      rw [hg, String.append_assoc]

lemma initializeFilter_eq_join (fl : Filter) :
    initializeFilter fl = String.join (fl.tags.map (fun t => tagGroup t ++ " ")) := by
  unfold initializeFilter
  rw [filterFold_eq_join, String.empty_append]

lemma join_sp_eq_intercalate (x : String) (l : List String) :
    String.join ((x :: l).map (fun s => s ++ " ")) = String.intercalate " " (x :: l) ++ " " := by
  induction l generalizing x with
  | nil =>
      simp [join_cons, join_nil, intercalate_cons, intercalate_go_nil, String.append_empty]
  | cons y l ih =>
      simp only [List.map_cons] at ih ⊢
      rw [join_cons, ih]
      rw [show String.intercalate " " (x :: y :: l) = x ++ " " ++ String.intercalate " " (y :: l) from by
            rw [intercalate_cons, intercalate_go_cons, ← intercalate_cons]]
      simp [String.append_assoc]

lemma initializeFilter_eq_intercalate (fl : Filter) (h : fl.tags ≠ []) :
    initializeFilter fl = String.intercalate " " (fl.tags.map tagGroup) ++ " " := by
  obtain ⟨t, ts, hts⟩ := List.exists_cons_of_ne_nil h
  rw [initializeFilter_eq_join, hts]
  have hmm : (t :: ts).map (fun u => tagGroup u ++ " ")
      = ((t :: ts).map tagGroup).map (fun s => s ++ " ") := by
    simp [List.map_map, Function.comp]
  rw [hmm, List.map_cons tagGroup]
  exact join_sp_eq_intercalate _ _

/-- Claim C3: for every non-empty FilterSpec, `initializeFilter` returns
the groups `(labels.<name>=<value>)`, exactly one per tag predicate,
joined by single spaces in the input's iteration order (the buffer loop
leaves one trailing separator space after the last group). -/
theorem initializeFilter_groups (fl : Filter) (h : fl.tags ≠ []) :
    initializeFilter fl = String.intercalate " " (fl.tags.map tagGroup) ++ " " :=
  initializeFilter_eq_intercalate fl h

/-- Witness for C3 at a concrete two-predicate filter. -/
theorem initializeFilter_groups_witness :
    (Filter.mk [⟨"env", "prod"⟩, ⟨"team", "sre"⟩]).tags ≠ [] ∧
    initializeFilter ⟨[⟨"env", "prod"⟩, ⟨"team", "sre"⟩]⟩
      = String.intercalate " " (([⟨"env", "prod"⟩, ⟨"team", "sre"⟩] : List Tag).map tagGroup) ++ " " :=
  ⟨by decide, initializeFilter_groups ⟨[⟨"env", "prod"⟩, ⟨"team", "sre"⟩]⟩ (by decide)⟩

/-- Claim C4: the compiled filter is the empty string iff the FilterSpec
has zero tag predicates. -/
theorem initializeFilter_empty_iff (fl : Filter) :
    initializeFilter fl = "" ↔ fl.tags = [] := by
  constructor
  · intro h
    by_contra hne
    have he := initializeFilter_eq_intercalate fl hne
    rw [h] at he
    have hlen := congrArg String.length he
    simp [String.length_append] at hlen
    have hone : (" " : String).length = 1 := rfl
    rw [hone] at hlen
    omega
  · intro h
    simp [initializeFilter, h]

lemma computeInstance_fst_ok (g : google) (rt : String) (fl : Filter)
    (l : List (String × List Item))
    (h : g.gcpr.listInstances (initializeFilter fl) = .ok l) :
    (computeInstance g rt fl).fst = .ok (l.flatMap (fun zi =>
      zi.2.map (fun i => NewResource (g.Project ++ "/" ++ zi.1 ++ "/" ++ i.name) rt g))) := by
  simp [computeInstance, h]

lemma computeInstance_fst_error (g : google) (rt : String) (fl : Filter) (e : Err)
    (h : g.gcpr.listInstances (initializeFilter fl) = .error e) :
    (computeInstance g rt fl).fst = .error (errorsWrap e "unable to list instances from reader") := by
  simp [computeInstance, h]

lemma computeInstanceIAMPolicy_fst_ok (g : google) (rt : String) (fl : Filter)
    (l : List (String × List Item))
    (h : g.gcpr.listInstances (initializeFilter fl) = .ok l) :
    (computeInstanceIAMPolicy g rt fl).fst = .ok (l.flatMap (fun zi =>
      zi.2.map (fun i =>
        NewResource ("projects/" ++ g.Project ++ "/zones/" ++ zi.1 ++ "/instances/" ++ i.name) rt g))) := by
  simp [computeInstanceIAMPolicy, h]

lemma computeInstanceGroup_fst_ok (g : google) (rt : String) (fl : Filter)
    (l : List (String × List Item))
    (h : g.gcpr.listInstanceGroups noFilter = .ok l) :
    (computeInstanceGroup g rt fl).fst = .ok (l.flatMap (fun zg =>
      zg.2.map (fun grp => NewResource (g.Project ++ "/" ++ zg.1 ++ "/" ++ grp.name) rt g))) := by
  simp [computeInstanceGroup, h]

lemma computeDisk_fst_ok (g : google) (rt : String) (fl : Filter)
    (l : List (String × List Item))
    (h : g.gcpr.listDisks (initializeFilter fl) = .ok l) :
    (computeDisk g rt fl).fst = .ok (l.flatMap (fun zd =>
      zd.2.map (fun d => NewResource (zd.1 ++ "/" ++ d.name) rt g))) := by
  simp [computeDisk, h]

lemma computeDisk_fst_error (g : google) (rt : String) (fl : Filter) (e : Err)
    (h : g.gcpr.listDisks (initializeFilter fl) = .error e) :
    (computeDisk g rt fl).fst = .error (errorsWrap e "unable to list disks from reader") := by
  simp [computeDisk, h]

/-- Claim C1: for every project, zone and instance name in the upstream
zoned listing, the plain compute-instance strategy produces a handle whose
identifier is `<project>/<zone>/<name>`, while the compute-instance
IAM-policy strategy on the same upstream item produces the identifier
`projects/<project>/zones/<zone>/instances/<name>`. -/
theorem instance_identifier_schemes (g : google) (rt : String) (fl : Filter)
    (l : List (String × List Item)) (z n : String) (items : List Item)
    (hl : g.gcpr.listInstances (initializeFilter fl) = .ok l)
    (hz : (z, items) ∈ l) (hn : Item.mk n ∈ items) :
    (∃ rs, (computeInstance g rt fl).fst = .ok rs ∧
        Resource.mk (g.Project ++ "/" ++ z ++ "/" ++ n) rt ∈ rs) ∧
    (∃ rs, (computeInstanceIAMPolicy g rt fl).fst = .ok rs ∧
        Resource.mk ("projects/" ++ g.Project ++ "/zones/" ++ z ++ "/instances/" ++ n) rt ∈ rs) := by
  constructor
  · refine ⟨_, computeInstance_fst_ok g rt fl l hl, ?_⟩
    exact List.mem_flatMap.mpr ⟨(z, items), hz, List.mem_map.mpr ⟨⟨n⟩, hn, rfl⟩⟩
  · refine ⟨_, computeInstanceIAMPolicy_fst_ok g rt fl l hl, ?_⟩
    exact List.mem_flatMap.mpr ⟨(z, items), hz, List.mem_map.mpr ⟨⟨n⟩, hn, rfl⟩⟩

/-- Witness for C1: project `proj`, zone `us-central1-a`, instance `web-1`. -/
theorem instance_identifier_schemes_witness :
    (google.mk okReader).gcpr.listInstances (initializeFilter ⟨[]⟩) = .ok okZonedInstances ∧
    ("us-central1-a", [Item.mk "web-1"]) ∈ okZonedInstances ∧
    Item.mk "web-1" ∈ [Item.mk "web-1"] ∧
    ((∃ rs, (computeInstance ⟨okReader⟩ "google_compute_instance" ⟨[]⟩).fst = .ok rs ∧
        Resource.mk ((google.mk okReader).Project ++ "/" ++ "us-central1-a" ++ "/" ++ "web-1")
          "google_compute_instance" ∈ rs) ∧
     (∃ rs, (computeInstanceIAMPolicy ⟨okReader⟩ "google_compute_instance" ⟨[]⟩).fst = .ok rs ∧
        Resource.mk ("projects/" ++ (google.mk okReader).Project ++ "/zones/" ++ "us-central1-a"
            ++ "/instances/" ++ "web-1") "google_compute_instance" ∈ rs)) :=
  ⟨rfl, by decide, by decide,
   instance_identifier_schemes ⟨okReader⟩ "google_compute_instance" ⟨[]⟩ okZonedInstances
     "us-central1-a" "web-1" [Item.mk "web-1"] rfl (by decide) (by decide)⟩

/-- Claim C2: for every zone and disk name in the upstream zoned listing,
the disk strategy produces a handle whose identifier is `<zone>/<name>`,
with no project segment, tagged with the resource type the strategy was
dispatched with. -/
theorem computeDisk_identifier (g : google) (rt : String) (fl : Filter)
    (l : List (String × List Item)) (z n : String) (items : List Item)
    (hl : g.gcpr.listDisks (initializeFilter fl) = .ok l)
    (hz : (z, items) ∈ l) (hn : Item.mk n ∈ items) :
    ∃ rs, (computeDisk g rt fl).fst = .ok rs ∧ Resource.mk (z ++ "/" ++ n) rt ∈ rs := by
  refine ⟨_, computeDisk_fst_ok g rt fl l hl, ?_⟩
  exact List.mem_flatMap.mpr ⟨(z, items), hz, List.mem_map.mpr ⟨⟨n⟩, hn, rfl⟩⟩

/-- Witness for C2: zone `us-east1-b`, disks `disk-1` and `disk-2`. -/
theorem computeDisk_identifier_witness :
    (google.mk okReader).gcpr.listDisks (initializeFilter ⟨[]⟩) = .ok okZonedDisks ∧
    ("us-east1-b", [Item.mk "disk-1", Item.mk "disk-2"]) ∈ okZonedDisks ∧
    Item.mk "disk-1" ∈ [Item.mk "disk-1", Item.mk "disk-2"] ∧
    (∃ rs, (computeDisk ⟨okReader⟩ "google_compute_disk" ⟨[]⟩).fst = .ok rs ∧
        Resource.mk ("us-east1-b" ++ "/" ++ "disk-1") "google_compute_disk" ∈ rs) :=
  ⟨rfl, by decide, by decide,
   computeDisk_identifier ⟨okReader⟩ "google_compute_disk" ⟨[]⟩ okZonedDisks
     "us-east1-b" "disk-1" [Item.mk "disk-1", Item.mk "disk-2"] rfl (by decide) (by decide)⟩

/-- Claim C7: for each scope-partitioned strategy, on a successful zoned
listing the number of handles equals the sum over all scope keys of the
item counts; scope keys with zero items contribute zero handles and do
not fail. -/
theorem scoped_strategy_counts (g : google) (rt : String) (fl : Filter)
    (li lg ld : List (String × List Item))
    (h1 : g.gcpr.listInstances (initializeFilter fl) = .ok li)
    (h2 : g.gcpr.listInstanceGroups noFilter = .ok lg)
    (h3 : g.gcpr.listDisks (initializeFilter fl) = .ok ld) :
    (∃ rs, (computeInstance g rt fl).fst = .ok rs ∧
        rs.length = (li.map (fun zi => zi.2.length)).sum) ∧
    (∃ rs, (computeInstanceGroup g rt fl).fst = .ok rs ∧
        rs.length = (lg.map (fun zg => zg.2.length)).sum) ∧
    (∃ rs, (computeDisk g rt fl).fst = .ok rs ∧
        rs.length = (ld.map (fun zd => zd.2.length)).sum) ∧
    (∃ rs, (computeInstanceIAMPolicy g rt fl).fst = .ok rs ∧
        rs.length = (li.map (fun zi => zi.2.length)).sum) := by
  refine ⟨⟨_, computeInstance_fst_ok g rt fl li h1, ?_⟩,
          ⟨_, computeInstanceGroup_fst_ok g rt fl lg h2, ?_⟩,
          ⟨_, computeDisk_fst_ok g rt fl ld h3, ?_⟩,
          ⟨_, computeInstanceIAMPolicy_fst_ok g rt fl li h1, ?_⟩⟩ <;>
    simp [List.length_flatMap, Function.comp_def, List.length_map]

/-- Witness for C7 at the fixture reader. -/
theorem scoped_strategy_counts_witness :
    (google.mk okReader).gcpr.listInstances (initializeFilter ⟨[]⟩) = .ok okZonedInstances ∧
    (google.mk okReader).gcpr.listInstanceGroups noFilter = .ok [] ∧
    (google.mk okReader).gcpr.listDisks (initializeFilter ⟨[]⟩) = .ok okZonedDisks ∧
    ((∃ rs, (computeInstance ⟨okReader⟩ "t" ⟨[]⟩).fst = .ok rs ∧
        rs.length = (okZonedInstances.map (fun zi => zi.2.length)).sum) ∧
     (∃ rs, (computeInstanceGroup ⟨okReader⟩ "t" ⟨[]⟩).fst = .ok rs ∧
        rs.length = (([] : List (String × List Item)).map (fun zg => zg.2.length)).sum) ∧
     (∃ rs, (computeDisk ⟨okReader⟩ "t" ⟨[]⟩).fst = .ok rs ∧
        rs.length = (okZonedDisks.map (fun zd => zd.2.length)).sum) ∧
     (∃ rs, (computeInstanceIAMPolicy ⟨okReader⟩ "t" ⟨[]⟩).fst = .ok rs ∧
        rs.length = (okZonedInstances.map (fun zi => zi.2.length)).sum)) :=
  ⟨rfl, rfl, rfl,
   scoped_strategy_counts ⟨okReader⟩ "t" ⟨[]⟩ okZonedInstances [] okZonedDisks rfl rfl rfl⟩

/-- Counterexample for C5: when managed-zone resolution fails, the wrap
contexts on the returned failure are `unable to previously fetch managed
zones` and `unable to list DNS managed zone from reader`; the message
`unable to resolve managed zones` the claim names appears nowhere on the
error. -/
theorem recordSetDNS_stage_one_msg_counterexample :
    (recordSetDNS ⟨zoneFailReader⟩ "google_dns_record_set" ⟨[]⟩).fst
      = .error ⟨["unable to previously fetch managed zones",
                 "unable to list DNS managed zone from reader"], "boom"⟩ ∧
    "unable to resolve managed zones"
        ∉ (["unable to previously fetch managed zones",
            "unable to list DNS managed zone from reader"] : List String) ∧
    ("boom" : String) ≠ "unable to resolve managed zones" :=
  ⟨rfl, by decide, by decide⟩

/-- Claim C5 (amended): if stage one of the DNS record-set strategy fails,
the strategy returns that failure wrapped with the context `unable to
previously fetch managed zones`, and the stage-two client call that lists
record sets is never invoked (the call trace is exactly the stage-one
call). -/
theorem recordSetDNS_stage_one_failure (g : google) (rt : String) (fl : Filter) (e : Err)
    (h : g.gcpr.listManagedZones = .error e) :
    (recordSetDNS g rt fl).fst
      = .error (errorsWrap (errorsWrap e "unable to list DNS managed zone from reader")
          "unable to previously fetch managed zones") ∧
    "unable to previously fetch managed zones"
        ∈ (errorsWrap (errorsWrap e "unable to list DNS managed zone from reader")
            "unable to previously fetch managed zones").msgs ∧
    (recordSetDNS g rt fl).snd = [Call.listManagedZones] := by
  refine ⟨?_, ?_, ?_⟩
  · simp [recordSetDNS, managedZoneDNS, h]
  · exact List.mem_cons_self _ _
  · simp [recordSetDNS, managedZoneDNS, h]

/-- Witness for C5 (amended) at the zone-failing fixture reader. -/
theorem recordSetDNS_stage_one_failure_witness :
    (google.mk zoneFailReader).gcpr.listManagedZones = .error failBase ∧
    ((recordSetDNS ⟨zoneFailReader⟩ "google_dns_record_set" ⟨[]⟩).fst
        = .error (errorsWrap (errorsWrap failBase "unable to list DNS managed zone from reader")
            "unable to previously fetch managed zones") ∧
     "unable to previously fetch managed zones"
        ∈ (errorsWrap (errorsWrap failBase "unable to list DNS managed zone from reader")
            "unable to previously fetch managed zones").msgs ∧
     (recordSetDNS ⟨zoneFailReader⟩ "google_dns_record_set" ⟨[]⟩).snd = [Call.listManagedZones]) :=
  ⟨rfl, recordSetDNS_stage_one_failure ⟨zoneFailReader⟩ "google_dns_record_set" ⟨[]⟩ failBase rfl⟩

/-- Claim C6: if stage one resolves zero managed zones, stage two is still
invoked, with the empty zone list, and when that call succeeds (empty
scope set, so an empty collection) the strategy returns the empty handle
sequence, not a failure. -/
theorem recordSetDNS_empty_zones (g : google) (rt : String) (fl : Filter)
    (h1 : g.gcpr.listManagedZones = .ok [])
    (h2 : g.gcpr.listResourceRecordSets [] = .ok []) :
    Call.listResourceRecordSets [] ∈ (recordSetDNS g rt fl).snd ∧
    (recordSetDNS g rt fl).fst = .ok [] := by
  constructor <;> simp [recordSetDNS, managedZoneDNS, h1, h2]

/-- Witness for C6 at the all-successful fixture reader. -/
theorem recordSetDNS_empty_zones_witness :
    (google.mk okReader).gcpr.listManagedZones = .ok [] ∧
    (google.mk okReader).gcpr.listResourceRecordSets [] = .ok [] ∧
    (Call.listResourceRecordSets [] ∈ (recordSetDNS ⟨okReader⟩ "google_dns_record_set" ⟨[]⟩).snd ∧
     (recordSetDNS ⟨okReader⟩ "google_dns_record_set" ⟨[]⟩).fst = .ok []) :=
  ⟨rfl, rfl, recordSetDNS_empty_zones ⟨okReader⟩ "google_dns_record_set" ⟨[]⟩ rfl rfl⟩

/-- Claim C8 (code bug): with a failing bucket listing, the storage-bucket
strategy wraps the failure with the context `unable to list global
forwarding rules from reader`, which names the wrong resource type. -/
theorem storageBucket_wrong_wrap_context :
    (storageBucket ⟨bucketFailReader⟩ "google_storage_bucket" ⟨[]⟩).fst
      = .error ⟨["unable to list global forwarding rules from reader"], "boom"⟩ := rfl

/-- Counterexample for C9: the two fixture readers return the same
instance map (the association lists are permutations of each other) and
the same project, yet the plain instance strategy returns differently
ordered handle sequences, because the handle order follows the map
iteration order. -/
theorem computeInstance_zone_order_counterexample :
    sameZonedListing (permReaderA.listInstances (initializeFilter ⟨[]⟩))
      (permReaderB.listInstances (initializeFilter ⟨[]⟩)) ∧
    permReaderA.project = permReaderB.project ∧
    (computeInstance ⟨permReaderA⟩ "google_compute_instance" ⟨[]⟩).fst
      ≠ (computeInstance ⟨permReaderB⟩ "google_compute_instance" ⟨[]⟩).fst := by
  refine ⟨?_, rfl, ?_⟩
  · show ([("za", [Item.mk "i1"]), ("zb", [Item.mk "i2"])] :
        List (String × List Item)).Perm [("zb", [Item.mk "i2"]), ("za", [Item.mk "i1"])]
    decide
  · decide

lemma outcomesUpToPerm_refl (a : Except Err (List Resource)) : outcomesUpToPerm a a := by
  cases a with
  | ok l => exact List.Perm.refl l
  | error e => exact rfl

lemma outcomesUpToPerm_of_eq {a b : Except Err (List Resource)} (h : a = b) :
    outcomesUpToPerm a b := by
  subst h
  exact outcomesUpToPerm_refl a

lemma flatMap_block_infix {α β : Type} (f : α → List β) {l : List α} {x : α} (hx : x ∈ l) :
    (f x).IsInfix (l.flatMap f) := by
  obtain ⟨s, t, rfl⟩ := List.append_of_mem hx
  exact ⟨s.flatMap f, t.flatMap f, by simp [List.flatMap_append, List.flatMap_cons, List.append_assoc]⟩

lemma computeInstanceGroup_fst_error (g : google) (rt : String) (fl : Filter) (e : Err)
    (h : g.gcpr.listInstanceGroups noFilter = .error e) :
    (computeInstanceGroup g rt fl).fst
      = .error (errorsWrap e "unable to list instance groups from reader") := by
  simp [computeInstanceGroup, h]

lemma computeInstanceIAMPolicy_fst_error (g : google) (rt : String) (fl : Filter) (e : Err)
    (h : g.gcpr.listInstances (initializeFilter fl) = .error e) :
    (computeInstanceIAMPolicy g rt fl).fst
      = .error (errorsWrap e "unable to list compute instances from reader") := by
  simp [computeInstanceIAMPolicy, h]

lemma recordSetDNS_fst_stage1_error (g : google) (rt : String) (fl : Filter) (e : Err)
    (h : g.gcpr.listManagedZones = .error e) :
    (recordSetDNS g rt fl).fst
      = .error (errorsWrap (errorsWrap e "unable to list DNS managed zone from reader")
          "unable to previously fetch managed zones") := by
  simp [recordSetDNS, managedZoneDNS, h]

lemma recordSetDNS_fst_stage2_error (g : google) (rt : String) (fl : Filter)
    (mz : List Item) (e : Err)
    (h1 : g.gcpr.listManagedZones = .ok mz)
    (h2 : g.gcpr.listResourceRecordSets (mz.map (fun z => z.name)) = .error e) :
    (recordSetDNS g rt fl).fst
      = .error (errorsWrap e "unable to list resources record se record sett from reader") := by
  simp [recordSetDNS, managedZoneDNS, h1, NewResource, List.map_map, Function.comp_def, h2]

lemma recordSetDNS_fst_ok (g : google) (rt : String) (fl : Filter)
    (mz : List Item) (l : List (String × List RRSet))
    (h1 : g.gcpr.listManagedZones = .ok mz)
    (h2 : g.gcpr.listResourceRecordSets (mz.map (fun z => z.name)) = .ok l) :
    (recordSetDNS g rt fl).fst = .ok (l.flatMap (fun zr =>
      zr.2.map (fun rr => NewResource (zr.1 ++ "/" ++ rr.name ++ "/" ++ rr.rrType) rt g))) := by
  simp [recordSetDNS, managedZoneDNS, h1, NewResource, List.map_map, Function.comp_def, h2]

lemma computeInstance_det (g1 g2 : google) (tn : String) (fl : Filter)
    (hp : g1.gcpr.project = g2.gcpr.project)
    (hi : sameZonedListing (g1.gcpr.listInstances (initializeFilter fl))
            (g2.gcpr.listInstances (initializeFilter fl))) :
    outcomesUpToPerm (computeInstance g1 tn fl).fst (computeInstance g2 tn fl).fst := by
  revert hi
  cases h1 : g1.gcpr.listInstances (initializeFilter fl) with
  | error e1 =>
      cases h2 : g2.gcpr.listInstances (initializeFilter fl) with
      | error e2 =>
          intro hi
          have he : e1 = e2 := hi
          subst he
          rw [computeInstance_fst_error g1 tn fl e1 h1, computeInstance_fst_error g2 tn fl e1 h2]
          exact rfl
      | ok l2 => intro hi; exact hi.elim
  | ok l1 =>
      cases h2 : g2.gcpr.listInstances (initializeFilter fl) with
      | error e2 => intro hi; exact hi.elim
      | ok l2 =>
          intro hi
          have hperm : l1.Perm l2 := hi
          rw [computeInstance_fst_ok g1 tn fl l1 h1, computeInstance_fst_ok g2 tn fl l2 h2]
          show (l1.flatMap _).Perm (l2.flatMap _)
          have hf : (fun zi : String × List Item =>
                zi.2.map (fun i => NewResource (g1.Project ++ "/" ++ zi.1 ++ "/" ++ i.name) tn g1))
              = (fun zi : String × List Item =>
                zi.2.map (fun i => NewResource (g2.Project ++ "/" ++ zi.1 ++ "/" ++ i.name) tn g2)) := by
            funext zi
            simp [NewResource, google.Project, hp]
          rw [hf]
          exact hperm.flatMap_right _

lemma computeInstanceGroup_det (g1 g2 : google) (tn : String) (fl : Filter)
    (hp : g1.gcpr.project = g2.gcpr.project)
    (hi : sameZonedListing (g1.gcpr.listInstanceGroups noFilter)
            (g2.gcpr.listInstanceGroups noFilter)) :
    outcomesUpToPerm (computeInstanceGroup g1 tn fl).fst (computeInstanceGroup g2 tn fl).fst := by
  revert hi
  cases h1 : g1.gcpr.listInstanceGroups noFilter with
  | error e1 =>
      cases h2 : g2.gcpr.listInstanceGroups noFilter with
      | error e2 =>
          intro hi
          have he : e1 = e2 := hi
          subst he
          rw [computeInstanceGroup_fst_error g1 tn fl e1 h1,
              computeInstanceGroup_fst_error g2 tn fl e1 h2]
          exact rfl
      | ok l2 => intro hi; exact hi.elim
  | ok l1 =>
      cases h2 : g2.gcpr.listInstanceGroups noFilter with
      | error e2 => intro hi; exact hi.elim
      | ok l2 =>
          intro hi
          have hperm : l1.Perm l2 := hi
          rw [computeInstanceGroup_fst_ok g1 tn fl l1 h1, computeInstanceGroup_fst_ok g2 tn fl l2 h2]
          show (l1.flatMap _).Perm (l2.flatMap _)
          have hf : (fun zg : String × List Item =>
                zg.2.map (fun grp => NewResource (g1.Project ++ "/" ++ zg.1 ++ "/" ++ grp.name) tn g1))
              = (fun zg : String × List Item =>
                zg.2.map (fun grp => NewResource (g2.Project ++ "/" ++ zg.1 ++ "/" ++ grp.name) tn g2)) := by
            funext zg
            simp [NewResource, google.Project, hp]
          rw [hf]
          exact hperm.flatMap_right _

lemma computeDisk_det (g1 g2 : google) (tn : String) (fl : Filter)
    (hd : sameZonedListing (g1.gcpr.listDisks (initializeFilter fl))
            (g2.gcpr.listDisks (initializeFilter fl))) :
    outcomesUpToPerm (computeDisk g1 tn fl).fst (computeDisk g2 tn fl).fst := by
  revert hd
  cases h1 : g1.gcpr.listDisks (initializeFilter fl) with
  | error e1 =>
      cases h2 : g2.gcpr.listDisks (initializeFilter fl) with
      | error e2 =>
          intro hd
          have he : e1 = e2 := hd
          subst he
          rw [computeDisk_fst_error g1 tn fl e1 h1, computeDisk_fst_error g2 tn fl e1 h2]
          exact rfl
      | ok l2 => intro hd; exact hd.elim
  | ok l1 =>
      cases h2 : g2.gcpr.listDisks (initializeFilter fl) with
      | error e2 => intro hd; exact hd.elim
      | ok l2 =>
          intro hd
          have hperm : l1.Perm l2 := hd
          rw [computeDisk_fst_ok g1 tn fl l1 h1, computeDisk_fst_ok g2 tn fl l2 h2]
          show (l1.flatMap _).Perm (l2.flatMap _)
          exact hperm.flatMap_right _

lemma computeInstanceIAMPolicy_det (g1 g2 : google) (tn : String) (fl : Filter)
    (hp : g1.gcpr.project = g2.gcpr.project)
    (hi : sameZonedListing (g1.gcpr.listInstances (initializeFilter fl))
            (g2.gcpr.listInstances (initializeFilter fl))) :
    outcomesUpToPerm (computeInstanceIAMPolicy g1 tn fl).fst
      (computeInstanceIAMPolicy g2 tn fl).fst := by
  revert hi
  cases h1 : g1.gcpr.listInstances (initializeFilter fl) with
  | error e1 =>
      cases h2 : g2.gcpr.listInstances (initializeFilter fl) with
      | error e2 =>
          intro hi
          have he : e1 = e2 := hi
          subst he
          rw [computeInstanceIAMPolicy_fst_error g1 tn fl e1 h1,
              computeInstanceIAMPolicy_fst_error g2 tn fl e1 h2]
          exact rfl
      | ok l2 => intro hi; exact hi.elim
  | ok l1 =>
      cases h2 : g2.gcpr.listInstances (initializeFilter fl) with
      | error e2 => intro hi; exact hi.elim
      | ok l2 =>
          intro hi
          have hperm : l1.Perm l2 := hi
          rw [computeInstanceIAMPolicy_fst_ok g1 tn fl l1 h1,
              computeInstanceIAMPolicy_fst_ok g2 tn fl l2 h2]
          show (l1.flatMap _).Perm (l2.flatMap _)
          have hf : (fun zi : String × List Item =>
                zi.2.map (fun i => NewResource
                  ("projects/" ++ g1.Project ++ "/zones/" ++ zi.1 ++ "/instances/" ++ i.name) tn g1))
              = (fun zi : String × List Item =>
                zi.2.map (fun i => NewResource
                  ("projects/" ++ g2.Project ++ "/zones/" ++ zi.1 ++ "/instances/" ++ i.name) tn g2)) := by
            funext zi
            simp [NewResource, google.Project, hp]
          rw [hf]
          exact hperm.flatMap_right _

lemma recordSetDNS_det (g1 g2 : google) (tn : String) (fl : Filter)
    (hmz : g1.gcpr.listManagedZones = g2.gcpr.listManagedZones)
    (hrr : ∀ zs, sameZonedListing (g1.gcpr.listResourceRecordSets zs)
            (g2.gcpr.listResourceRecordSets zs)) :
    outcomesUpToPerm (recordSetDNS g1 tn fl).fst (recordSetDNS g2 tn fl).fst := by
  cases hm1 : g1.gcpr.listManagedZones with
  | error e =>
      have hm2 : g2.gcpr.listManagedZones = .error e := by rw [← hmz]; exact hm1
      rw [recordSetDNS_fst_stage1_error g1 tn fl e hm1,
          recordSetDNS_fst_stage1_error g2 tn fl e hm2]
      exact rfl
  | ok mz =>
      have hm2 : g2.gcpr.listManagedZones = .ok mz := by rw [← hmz]; exact hm1
      have hz := hrr (mz.map (fun z => z.name))
      revert hz
      cases hr1 : g1.gcpr.listResourceRecordSets (mz.map (fun z => z.name)) with
      | error e1 =>
          cases hr2 : g2.gcpr.listResourceRecordSets (mz.map (fun z => z.name)) with
          | error e2 =>
              intro hz
              have he : e1 = e2 := hz
              subst he
              rw [recordSetDNS_fst_stage2_error g1 tn fl mz e1 hm1 hr1,
                  recordSetDNS_fst_stage2_error g2 tn fl mz e1 hm2 hr2]
              exact rfl
          | ok l2 => intro hz; exact hz.elim
      | ok l1 =>
          cases hr2 : g2.gcpr.listResourceRecordSets (mz.map (fun z => z.name)) with
          | error e2 => intro hz; exact hz.elim
          | ok l2 =>
              intro hz
              have hperm : l1.Perm l2 := hz
              rw [recordSetDNS_fst_ok g1 tn fl mz l1 hm1 hr1,
                  recordSetDNS_fst_ok g2 tn fl mz l2 hm2 hr2]
              show (l1.flatMap _).Perm (l2.flatMap _)
              exact hperm.flatMap_right _

lemma zoneBlocksOrdered_holds (g : google) (tn : String) (fl : Filter) :
    zoneBlocksOrdered g tn fl := by
  refine ⟨?_, ?_, ?_, ?_, ?_⟩
  · intro l hl zi hzi
    refine ⟨_, computeInstance_fst_ok g tn fl l hl, ?_⟩
    exact flatMap_block_infix
      (fun zi => zi.2.map (fun i => NewResource (g.Project ++ "/" ++ zi.1 ++ "/" ++ i.name) tn g)) hzi
  · intro l hl zg hzg
    refine ⟨_, computeInstanceGroup_fst_ok g tn fl l hl, ?_⟩
    exact flatMap_block_infix
      (fun zg => zg.2.map (fun grp => NewResource (g.Project ++ "/" ++ zg.1 ++ "/" ++ grp.name) tn g)) hzg
  · intro l hl zd hzd
    refine ⟨_, computeDisk_fst_ok g tn fl l hl, ?_⟩
    exact flatMap_block_infix
      (fun zd => zd.2.map (fun d => NewResource (zd.1 ++ "/" ++ d.name) tn g)) hzd
  · intro l hl zi hzi
    refine ⟨_, computeInstanceIAMPolicy_fst_ok g tn fl l hl, ?_⟩
    exact flatMap_block_infix
      (fun zi => zi.2.map (fun i => NewResource
        ("projects/" ++ g.Project ++ "/zones/" ++ zi.1 ++ "/instances/" ++ i.name) tn g)) hzi
  · intro mz l h1 h2 zr hzr
    refine ⟨_, recordSetDNS_fst_ok g tn fl mz l h1 h2, ?_⟩
    exact flatMap_block_infix
      (fun zr => zr.2.map (fun rr =>
        NewResource (zr.1 ++ "/" ++ rr.name ++ "/" ++ rr.rrType) tn g)) hzr

/-- Claim C9 (amended): every fetch strategy in the registry is
deterministic up to the unspecified iteration order of the zoned
(map-shaped) client responses: two invocations with the same project and
the same upstream data — flat listings identical, zoned listings equal
as finite maps — return the same outcome up to reordering of the handle
sequence, and identical failures on identical upstream failures;
moreover, in either invocation each zone's handles appear contiguously
in the order of that zone's upstream item slice. -/
theorem fetch_strategies_deterministic_up_to_zone_order
    (g1 g2 : google) (tn : String) (fl : Filter)
    (h : sameResponses g1.gcpr g2.gcpr) :
    (∀ rt : ResourceType,
        outcomesUpToPerm (resources rt g1 tn fl).fst (resources rt g2 tn fl).fst) ∧
    zoneBlocksOrdered g1 tn fl ∧ zoneBlocksOrdered g2 tn fl := by
  obtain ⟨hp, hins, hfw, hnw, hhc, hig, hbs, hum, hthp, hthps, hssl, hgfr, hfr, hdk,
          hbbk, hbkt, hsti, hmz, hrr, hrole⟩ := h
  refine ⟨?_, zoneBlocksOrdered_holds g1 tn fl, zoneBlocksOrdered_holds g2 tn fl⟩
  intro rt
  cases rt with
  | ComputeInstance => exact computeInstance_det g1 g2 tn fl hp (hins _)
  | ComputeFirewall =>
      have hh : computeFirewall g1 tn fl = computeFirewall g2 tn fl := by
        unfold computeFirewall; simp only [ NewResource]; rw [hfw]
      exact outcomesUpToPerm_of_eq (congrArg Prod.fst hh)
  | ComputeNetwork =>
      have hh : computeNetwork g1 tn fl = computeNetwork g2 tn fl := by
        unfold computeNetwork; simp only [ NewResource]; rw [hnw]
      exact outcomesUpToPerm_of_eq (congrArg Prod.fst hh)
  | ComputeHealthCheck =>
      have hh : computeHealthCheck g1 tn fl = computeHealthCheck g2 tn fl := by
        unfold computeHealthCheck; simp only [ NewResource]; rw [hhc]
      exact outcomesUpToPerm_of_eq (congrArg Prod.fst hh)
  | ComputeInstanceGroup => exact computeInstanceGroup_det g1 g2 tn fl hp (hig _)
  | ComputeInstanceIAMPolicy => exact computeInstanceIAMPolicy_det g1 g2 tn fl hp (hins _)
  | ComputeBackendBucket =>
      have hh : computeBackendBucket g1 tn fl = computeBackendBucket g2 tn fl := by
        unfold computeBackendBucket; simp only [ NewResource]; rw [hbbk]
      exact outcomesUpToPerm_of_eq (congrArg Prod.fst hh)
  | ComputeBackendService =>
      have hh : computeBackendService g1 tn fl = computeBackendService g2 tn fl := by
        unfold computeBackendService; simp only [ NewResource]; rw [hbs]
      exact outcomesUpToPerm_of_eq (congrArg Prod.fst hh)
  | ComputeSSLCertificate =>
      have hh : computeSSLCertificate g1 tn fl = computeSSLCertificate g2 tn fl := by
        unfold computeSSLCertificate; simp only [ NewResource]; rw [hssl]
      exact outcomesUpToPerm_of_eq (congrArg Prod.fst hh)
  | ComputeTargetHTTPProxy =>
      have hh : computeTargetHTTPProxy g1 tn fl = computeTargetHTTPProxy g2 tn fl := by
        unfold computeTargetHTTPProxy; simp only [ NewResource]; rw [hthp]
      exact outcomesUpToPerm_of_eq (congrArg Prod.fst hh)
  | ComputeTargetHTTPSProxy =>
      have hh : computeTargetHTTPSProxy g1 tn fl = computeTargetHTTPSProxy g2 tn fl := by
        unfold computeTargetHTTPSProxy; simp only [ NewResource]; rw [hthps]
      exact outcomesUpToPerm_of_eq (congrArg Prod.fst hh)
  | ComputeURLMap =>
      have hh : computeURLMap g1 tn fl = computeURLMap g2 tn fl := by
        unfold computeURLMap; simp only [ NewResource]; rw [hum]
      exact outcomesUpToPerm_of_eq (congrArg Prod.fst hh)
  | ComputeGlobalForwardingRule =>
      have hh : computeGlobalForwardingRule g1 tn fl = computeGlobalForwardingRule g2 tn fl := by
        unfold computeGlobalForwardingRule; simp only [ NewResource]; rw [hgfr]
      exact outcomesUpToPerm_of_eq (congrArg Prod.fst hh)
  | ComputeForwardingRule =>
      have hh : computeForwardingRule g1 tn fl = computeForwardingRule g2 tn fl := by
        unfold computeForwardingRule; simp only [ NewResource]; rw [hfr]
      exact outcomesUpToPerm_of_eq (congrArg Prod.fst hh)
  | ComputeDisk => exact computeDisk_det g1 g2 tn fl (hdk _)
  | DNSManagedZone =>
      have hh : managedZoneDNS g1 tn fl = managedZoneDNS g2 tn fl := by
        unfold managedZoneDNS; simp only [ NewResource]; rw [hmz]
      exact outcomesUpToPerm_of_eq (congrArg Prod.fst hh)
  | DNSRecordSet => exact recordSetDNS_det g1 g2 tn fl hmz hrr
  | ProjectIAMCustomRole =>
      have hh : projectIAMCustomRole g1 tn fl = projectIAMCustomRole g2 tn fl := by
        unfold projectIAMCustomRole; simp only [ NewResource]; rw [hp, hrole]
      exact outcomesUpToPerm_of_eq (congrArg Prod.fst hh)
  | StorageBucket =>
      have hh : storageBucket g1 tn fl = storageBucket g2 tn fl := by
        unfold storageBucket; simp only [ NewResource]; rw [hbkt]
      exact outcomesUpToPerm_of_eq (congrArg Prod.fst hh)
  | StorageBucketIAMPolicy =>
      have hh : storageBucketIAMPolicy g1 tn fl = storageBucketIAMPolicy g2 tn fl := by
        unfold storageBucketIAMPolicy; simp only [ NewResource]; rw [hbkt]
      exact outcomesUpToPerm_of_eq (congrArg Prod.fst hh)
  | SQLDatabaseInstance =>
      have hh : sqlDatabaseInstance g1 tn fl = sqlDatabaseInstance g2 tn fl := by
        unfold sqlDatabaseInstance; simp only [ NewResource]; rw [hsti]
      exact outcomesUpToPerm_of_eq (congrArg Prod.fst hh)

/-- Witness for C9 (amended): the two permuted fixture readers carry the
same upstream data with the instance map delivered in genuinely different
iteration orders; the theorem applies, giving permutation-equivalent
outcomes for a strategy of the registry and ordered zone blocks. -/
theorem fetch_strategies_deterministic_witness :
    sameResponses permReaderA permReaderB ∧
    outcomesUpToPerm (resources .ComputeInstance ⟨permReaderA⟩ "t9" ⟨[]⟩).fst
      (resources .ComputeInstance ⟨permReaderB⟩ "t9" ⟨[]⟩).fst ∧
    zoneBlocksOrdered ⟨permReaderA⟩ "t9" ⟨[]⟩ :=
  have hper : ([("za", [Item.mk "i1"]), ("zb", [Item.mk "i2"])] :
      List (String × List Item)).Perm [("zb", [Item.mk "i2"]), ("za", [Item.mk "i1"])] := by
    decide
  have hsame : sameResponses permReaderA permReaderB :=
    ⟨rfl, fun _ => hper, rfl, rfl, rfl, fun _ => List.Perm.refl _, rfl, rfl, rfl, rfl, rfl,
     rfl, rfl, fun _ => List.Perm.refl _, rfl, rfl, rfl, rfl, fun _ => List.Perm.refl _, rfl⟩
  ⟨hsame,
   (fetch_strategies_deterministic_up_to_zone_order ⟨permReaderA⟩ ⟨permReaderB⟩ "t9" ⟨[]⟩
     hsame).1 .ComputeInstance,
   (fetch_strategies_deterministic_up_to_zone_order ⟨permReaderA⟩ ⟨permReaderB⟩ "t9" ⟨[]⟩
     hsame).2.1⟩

/-- Claim C10: every flat-listing strategy is independent of the filter
specification: two invocations differing only in the FilterSpec return
the identical outcome, so a non-empty filter is silently ignored and
never rejected. -/
theorem flat_strategies_filter_independent (g : google) (rt : String) (f1 f2 : Filter) :
    computeNetwork g rt f1 = computeNetwork g rt f2 ∧
    computeFirewall g rt f1 = computeFirewall g rt f2 ∧
    computeHealthCheck g rt f1 = computeHealthCheck g rt f2 ∧
    computeBackendService g rt f1 = computeBackendService g rt f2 ∧
    computeBackendBucket g rt f1 = computeBackendBucket g rt f2 ∧
    computeURLMap g rt f1 = computeURLMap g rt f2 ∧
    computeTargetHTTPProxy g rt f1 = computeTargetHTTPProxy g rt f2 ∧
    computeTargetHTTPSProxy g rt f1 = computeTargetHTTPSProxy g rt f2 ∧
    computeSSLCertificate g rt f1 = computeSSLCertificate g rt f2 ∧
    storageBucket g rt f1 = storageBucket g rt f2 ∧
    sqlDatabaseInstance g rt f1 = sqlDatabaseInstance g rt f2 ∧
    managedZoneDNS g rt f1 = managedZoneDNS g rt f2 :=
  ⟨rfl, rfl, rfl, rfl, rfl, rfl, rfl, rfl, rfl, rfl, rfl, rfl⟩

end Terracognita
